import Mathlib

/-!
Verification of the AutoHome household-automation backend.

Each Python module relevant to the checked properties is shallowly embedded
below: pure functions become Lean functions over exact rationals and integers,
Python dictionaries become structures or association lists, and fallible code
(ZeroDivisionError, ValueError, GuardrailViolation, HTTPException) becomes
Option / Except results.  Python float arithmetic is idealised as exact
rational arithmetic; Python round (banker's rounding) is modelled exactly by
pyRoundHalfEven below.
-/

set_option maxHeartbeats 1000000

namespace AutoHome

/-! ### Python rounding

Python `round` uses round-half-to-even.  `pyRoundHalfEven x` is the integer
Python returns for `round(x)`; `pyRound1 x` models `round(x, 1)`. -/

def pyRoundHalfEven (x : ℚ) : ℤ :=
  let f : ℤ := ⌊x⌋
  let r : ℚ := x - f
  if r < 1/2 then f
  else if 1/2 < r then f + 1
  else if f % 2 = 0 then f else f + 1

def pyRound1 (x : ℚ) : ℚ :=
  ((pyRoundHalfEven (10 * x) : ℚ)) / 10

/-! ### Python string primitives

The embeddings below work over `List Char` (the character list of a Lean
`String`) with structurally recursive definitions, modelling the Python
string operations used by the sources: `str.lower`, `str.replace`,
`str.split`, `str.startswith`, `str.endswith`, `str.rstrip`, and the `in`
substring test. -/

/-- ASCII lower-casing, `str.lower()` on the ASCII inputs this code handles. -/
def pyCharLower (c : Char) : Char :=
  if 65 ≤ c.toNat ∧ c.toNat ≤ 90 then Char.ofNat (c.toNat + 32) else c

def strLower (s : String) : String :=
  ⟨s.data.map pyCharLower⟩

/-- `str.replace(old, new)` replacing every occurrence; the fuel argument
(seeded with the text length) makes the recursion structural, and suffices
because each step consumes at least one character of the text.  Source
patterns are never empty. -/
def replaceAllFuel (pat rep : List Char) : ℕ → List Char → List Char
  | 0, l => l
  | _ + 1, [] => []
  | fuel + 1, c :: rest =>
      if !pat.isEmpty && pat.isPrefixOf (c :: rest) then
        rep ++ replaceAllFuel pat rep fuel ((c :: rest).drop pat.length)
      else c :: replaceAllFuel pat rep fuel rest

def strReplace (s pat rep : String) : String :=
  ⟨replaceAllFuel pat.data rep.data (s.data.length + 1) s.data⟩

def splitOnChar (sep : Char) : List Char → List (List Char)
  | [] => [[]]
  | c :: rest =>
      let r := splitOnChar sep rest
      if c = sep then [] :: r
      else
        match r with
        | [] => [[c]]
        | h :: t => (c :: h) :: t

def joinWithDot : List (List Char) → List Char
  | [] => []
  | [x] => x
  | x :: y :: t => x ++ '.' :: joinWithDot (y :: t)

def strStartsWith (s p : String) : Bool :=
  p.data.isPrefixOf s.data

def strEndsWith (s p : String) : Bool :=
  p.data.reverse.isPrefixOf s.data.reverse

def subOccurs (needle : List Char) : List Char → Bool
  | [] => needle.isEmpty
  | c :: t => needle.isPrefixOf (c :: t) || subOccurs needle t

/-- Python `needle in hay` on strings. -/
def strContains (hay needle : String) : Bool :=
  subOccurs needle.data hay.data

/-- Python truthiness of an optional string. -/
def pyTruthy : Option String → Bool
  | none => false
  | some s => !s.data.isEmpty

/-- `s.rstrip("/")`. -/
def rstripSlash (s : String) : String :=
  ⟨((s.data.reverse.dropWhile (fun c => c = '/'))).reverse⟩

/-! ### backend/db/models.py — Guardrail engine (claim C1)

`Guardrail` is a pydantic model; pydantic silently drops unknown constructor
keyword arguments, so the `target_devices=[...]` argument used by the test
suite never becomes a field and `enforce` has no device-targeting check.
The embedded structure therefore has exactly the declared fields.
A command's `parameters` dict is only consulted for the integer key
`"brightness"`, so it is embedded as an association list of integers. -/

structure Device where
  id : String
  name : String
  type : String
  deriving Repr, DecidableEq

structure Command where
  device_id : String
  action : String
  parameters : List (String × Int) := []
  deriving Repr, DecidableEq

structure GuardrailViolation where
  guardrail_id : String
  message : String
  deriving Repr, DecidableEq

structure Guardrail where
  id : String
  name : String
  description : Option String := none
  allowed_actions : Option (List String) := none
  blocked_actions : Option (List String) := none
  blocked_devices : Option (List String) := none
  max_brightness : Option Int := none
  deriving Repr, DecidableEq

def Guardrail.enforce (g : Guardrail) (command : Command) (device : Device) :
    Except GuardrailViolation Unit :=
  if g.allowed_actions.isSome ∧ command.action ∉ g.allowed_actions.getD [] then
    .error ⟨g.id, "Action " ++ command.action ++ " is not permitted by guardrail " ++ g.name ++ "."⟩
  else if g.blocked_actions.isSome ∧ command.action ∈ g.blocked_actions.getD [] then
    .error ⟨g.id, "Action " ++ command.action ++ " is blocked by guardrail " ++ g.name ++ "."⟩
  else if g.blocked_devices.isSome ∧ device.id ∈ g.blocked_devices.getD [] then
    .error ⟨g.id, "Device " ++ device.name ++ " is blocked by guardrail " ++ g.name ++ "."⟩
  else
    match g.max_brightness, (command.parameters.lookup "brightness") with
    | some limit, some brightness =>
        if limit < brightness then
          .error ⟨g.id, "Brightness exceeds the limit set by guardrail " ++ g.name ++ "."⟩
        else .ok ()
    | _, _ => .ok ()

/-! ### unnamed/part_000 — EnhancedSmartThermostat (claim C2)

Constants from `__init__`: base 72, bounds [68, 82], max change 2, bedtime 68,
sleep 66, wake 70.  The only transcendental step in the Python source is
`math.sin(math.pi * (hour - 6) / 12)` inside `calculate_sunlight_impact`;
it is only evaluated when `6 <= hour <= 18`, and its value enters the result
solely through the heat-gain product.  The embedding abstracts that one value
as the explicit argument `sinVal` (for hours outside [6, 18] the source sets
the intensity to 0 without calling `math.sin`, so `sinVal` is then ignored).
All theorems below hold for every value of `sinVal`, hence in particular for
the actual sine value. -/

inductive RoutineState where
  | AWAKE | BEDTIME | SLEEPING | WAKING_UP
  deriving Repr, DecidableEq

inductive BlindPosition where
  | OPEN | PARTIALLY_OPEN | CLOSED
  deriving Repr, DecidableEq

def BlindPosition.val : BlindPosition → ℚ
  | .OPEN => 1
  | .PARTIALLY_OPEN => 1/2
  | .CLOSED => 0

def determine_routine_state (current_hour : ℤ) (occupancy_count : ℤ) : RoutineState :=
  if occupancy_count = 0 then .AWAKE
  else if 22 ≤ current_hour ∨ current_hour ≤ 2 then .BEDTIME
  else if 3 ≤ current_hour ∧ current_hour ≤ 6 then .SLEEPING
  else if 7 ≤ current_hour ∧ current_hour ≤ 8 then .WAKING_UP
  else .AWAKE

structure SunlightData where
  heat_gain : ℚ
  optimal_blinds : BlindPosition
  blind_adjustment : String
  sun_intensity : ℚ
  deriving Repr, DecidableEq

def calculate_sunlight_impact (sinVal : ℚ) (outside_temp : ℚ) (current_hour : ℤ)
    (blinds_position : BlindPosition) : SunlightData :=
  let sun_intensity : ℚ :=
    if 6 ≤ current_hour ∧ current_hour ≤ 18 then max 0 sinVal else 0
  let base_sunlight_heat_gain := sun_intensity * 8
  let actual_heat_gain := base_sunlight_heat_gain * blinds_position.val
  if outside_temp > 80 ∧ sun_intensity > 1/2 then
    ⟨actual_heat_gain, .CLOSED, "Close blinds to reduce heat gain", sun_intensity⟩
  else if outside_temp > 75 ∧ sun_intensity > 7/10 then
    ⟨actual_heat_gain, .PARTIALLY_OPEN, "Partially close blinds", sun_intensity⟩
  else if outside_temp < 65 ∧ sun_intensity > 3/10 then
    ⟨actual_heat_gain, .OPEN, "Keep blinds open for natural heating", sun_intensity⟩
  else
    ⟨actual_heat_gain, .OPEN, "Keep blinds open", sun_intensity⟩

/-- Door airflow effect; `none` models the ZeroDivisionError Python raises
when `doors_open_count > 0` and `total_doors == 0`. -/
def calculate_door_airflow_effect (doors_open_count total_doors : ℤ)
    (outside_temp inside_temp : ℚ) : Option ℚ :=
  if doors_open_count = 0 then some 0
  else if total_doors = 0 then none
  else
    let door_open_ratio := min ((doors_open_count : ℚ) / (total_doors : ℚ)) 1
    let temp_differential := outside_temp - inside_temp
    some (temp_differential * door_open_ratio * (3/10))

structure EnhancedOptResult where
  optimal_temperature : ℚ
  routine_state : RoutineState
  routine_adjustment : ℚ
  sunlight_data : SunlightData
  door_effect : ℚ
  deriving Repr, DecidableEq

def calculate_enhanced_optimal_temperature (sinVal : ℚ)
    (humidity_percent outside_temp_f : ℚ) (occupancy_count : ℤ)
    (current_temp_f : ℚ) (current_hour : ℤ)
    (doors_open : ℤ := 0) (total_doors : ℤ := 10)
    (blinds_position : BlindPosition := .OPEN) : Option EnhancedOptResult :=
  let routine_state := determine_routine_state current_hour occupancy_count
  let base_target : ℚ :=
    match routine_state with
    | .BEDTIME => 68 | .SLEEPING => 66 | .WAKING_UP => 70 | .AWAKE => 72
  let routine_adjustment : ℚ :=
    match routine_state with
    | .BEDTIME => -4 | .SLEEPING => -6 | .WAKING_UP => -2 | .AWAKE => 0
  let occupancy_adjustment := min ((occupancy_count : ℚ) * (3/2)) 6
  let humidity_adjustment :=
    if humidity_percent > 50 then (humidity_percent - 50) * (15/100) else 0
  let sunlight_data :=
    calculate_sunlight_impact sinVal outside_temp_f current_hour blinds_position
  let sunlight_adjustment := -sunlight_data.heat_gain * (1/2)
  match calculate_door_airflow_effect doors_open total_doors outside_temp_f current_temp_f with
  | none => none
  | some door_effect =>
    let door_adjustment := -door_effect * (8/10)
    let outside_adjustment : ℚ :=
      if outside_temp_f > 80 then min ((outside_temp_f - 80) * (3/10)) 8
      else if outside_temp_f < 60 then -(min ((60 - outside_temp_f) * (2/10)) 5)
      else 0
    let optimal0 := base_target +
      (occupancy_adjustment + humidity_adjustment + sunlight_adjustment +
        door_adjustment + outside_adjustment)
    let optimal1 := max 68 (min 82 optimal0)
    let optimal2 :=
      if |optimal1 - current_temp_f| > 2 then
        (if optimal1 > current_temp_f then current_temp_f + 2 else current_temp_f - 2)
      else optimal1
    some ⟨pyRound1 optimal2, routine_state, routine_adjustment, sunlight_data, pyRound1 door_effect⟩

/-! ### unnamed/part_000 — SmartThermostat HVAC timing, offline variant
(claims C3 and C4)

`none` models ZeroDivisionError: Python raises it both when
`square_footage == 0` (computing `effective_rate`) and when the adjusted rate
is zero (computing `minutes_needed`).  The `heating` / cooling branches of the
source compute the identical `outdoor_factor` expression, which the embedding
keeps as an `if` with equal arms. -/

def SmartThermostat.calculate_time_to_temperature (current_temp target_temp : ℚ)
    (square_footage : ℚ) (num_cooling_units : ℤ) (outdoor_temp : ℚ) : Option ℤ :=
  if |current_temp - target_temp| < 1/2 then some 0
  else
    let heating := target_temp > current_temp
    let temp_change_needed := |target_temp - current_temp|
    let base_rate_per_unit : ℚ := 1/20
    if square_footage = 0 then none
    else
      let effective_rate := base_rate_per_unit * (num_cooling_units : ℚ) * 1000 / square_footage
      let outdoor_factor : ℚ :=
        if heating then max (3/10) (1 - |outdoor_temp - target_temp| * (1/100))
        else max (3/10) (1 - |outdoor_temp - target_temp| * (1/100))
      let adjusted_rate := effective_rate * outdoor_factor
      if adjusted_rate = 0 then none
      else some (pyRoundHalfEven (temp_change_needed / adjusted_rate))

/-! ### backend/app/services/scheduler_runner.py — `_next_daily_occurrence`
(claim C5)

Python `datetime` values are embedded with an absolute day index (the
calendar itself is irrelevant to the scheduler logic: `reference.replace`
keeps the date and `timedelta(days=1)` moves to the next date).  The
comparison `candidate <= reference` on normalised datetimes coincides with
comparison of the microsecond key below.  `datetime.strptime(s, "%H:%M")`
accepts one or two digits for each field, bounds the hour by 23 and the
minute by 59, and raises ValueError otherwise; `parseHHMM` mirrors that. -/

structure PyDateTime where
  day : ℤ
  hour : ℕ
  minute : ℕ
  second : ℕ
  microsecond : ℕ
  deriving Repr, DecidableEq

def PyDateTime.key (d : PyDateTime) : ℤ :=
  ((((d.day * 24 + d.hour) * 60 + d.minute) * 60 + d.second) * 1000000 + d.microsecond)

def PyDateTime.addDays (d : PyDateTime) (n : ℤ) : PyDateTime :=
  { d with day := d.day + n }

def digitVal (c : Char) : Option ℕ :=
  if c.toNat ≥ 48 ∧ c.toNat ≤ 57 then some (c.toNat - 48) else none

def parseNat12 : List Char → Option ℕ
  | [c] => digitVal c
  | [c1, c2] =>
      match digitVal c1, digitVal c2 with
      | some a, some b => some (a * 10 + b)
      | _, _ => none
  | _ => none

def parseHHMM (s : String) : Option (ℕ × ℕ) :=
  match splitOnChar ':' s.data with
  | [hs, ms] =>
      match parseNat12 hs, parseNat12 ms with
      | some h, some m => if h ≤ 23 ∧ m ≤ 59 then some (h, m) else none
      | _, _ => none
  | _ => none

def _next_daily_occurrence (run_time : String) (reference : PyDateTime) : PyDateTime :=
  let scheduled_time : ℕ × ℕ :=
    match parseHHMM run_time with
    | some hm => hm
    | none => (reference.hour, reference.minute)
  let candidate : PyDateTime :=
    { reference with
        hour := scheduled_time.1
        minute := scheduled_time.2
        second := 0
        microsecond := 0 }
  if candidate.key ≤ reference.key then candidate.addDays 1 else candidate

/-! ### backend/app/services/ha_thermostat_service.py and backend/app/config.py
— connectivity check (claim C6)

`HAThermostatService.__init__` stores `HA_BASE_URL.rstrip("/")` when the
configured base URL is truthy (neither `None` nor empty) and `None`
otherwise, and stores the token verbatim.  `check_ha_connection` is embedded
as a function of the `MOCK_HA` flag, the two stored fields and the outcome
the network would give; it returns the boolean result paired with whether the
HTTP GET was performed, so the no-network-call part of the claim is visible
in the result. -/

structure HAThermostatService where
  ha_url : Option String
  ha_token : Option String
  deriving Repr, DecidableEq

def HAThermostatService.init (ha_base_url ha_token : Option String) : HAThermostatService :=
  { ha_url := if pyTruthy ha_base_url then some (rstripSlash (ha_base_url.getD "")) else none
    ha_token := ha_token }

def HAThermostatService.check_ha_connection (svc : HAThermostatService)
    (mock_ha : Bool) (network_ok : Bool) : Bool × Bool :=
  if ¬ pyTruthy svc.ha_url ∨ ¬ pyTruthy svc.ha_token then (false, false)
  else if mock_ha then (true, false)
  else (network_ok, true)

/-! ### backend/mock_ha/client.py — MockHomeAssistantClient.apply (claim C7)

A device state map is embedded with the three keys the client touches plus
the `last_synced` stamp; the wall-clock timestamp written into `last_synced`
is passed in as `now`.  Command parameters keep the two keys `apply` reads.
`Except.error` models the ValueError raised for an unsupported action. -/

structure MockDeviceState where
  power : Option String := none
  brightness : Option ℤ := none
  temperature : Option ℚ := none
  last_synced : Option String := none
  deriving Repr, DecidableEq

structure MockParams where
  brightness : Option ℤ := none
  temperature : Option ℚ := none
  deriving Repr, DecidableEq

def MockHomeAssistantClient.apply (device_id : String) (device_state : MockDeviceState)
    (action : String) (params : MockParams) (now : String) :
    Except String MockDeviceState :=
  let state := device_state
  if action = "turn_on" then
    let state := { state with power := some "on" }
    let state :=
      match params.brightness with
      | some b => { state with brightness := some (max 0 (min 100 b)) }
      | none => state
    .ok { state with last_synced := some now }
  else if action = "turn_off" then
    .ok { state with power := some "off", last_synced := some now }
  else if action = "set_brightness" then
    let state := { state with power := some (state.power.getD "on") }
    let state := { state with brightness := some (max 0 (min 100 (params.brightness.getD 100))) }
    .ok { state with last_synced := some now }
  else if action = "set_temperature" then
    let temperature := params.temperature.getD (device_state.temperature.getD 21)
    .ok { state with temperature := some temperature, last_synced := some now }
  else
    .error ("Unsupported action " ++ action ++ " for device " ++ device_id ++ ".")

/-! ### backend/app/api/chat.py — alias-cache device resolution (claim C8)

Python sets are consumed only through membership / any-match tests, so alias
sets are embedded as lists (possibly with duplicates); dict iteration order is
insertion order, embedded as list order.  A device enters the cache as its
entity id together with `attributes.get("friendly_name", "")`. -/

def isLowerAlnum (c : Char) : Bool :=
  (97 ≤ c.toNat && c.toNat ≤ 122) || (48 ≤ c.toNat && c.toNat ≤ 57)

def collapseSpaces : List Char → List Char
  | [] => []
  | [c] => [c]
  | a :: b :: rest =>
      if a = ' ' && b = ' ' then collapseSpaces (b :: rest)
      else a :: collapseSpaces (b :: rest)

def trimSpaces (l : List Char) : List Char :=
  ((l.dropWhile (fun c => c = ' ')).reverse.dropWhile (fun c => c = ' ')).reverse

/-- `re.sub(r"[^a-z0-9]+", " ", value.lower()).strip()`, then collapsing any
remaining whitespace runs (the second `re.sub` in the source). -/
def _normalise_text (value : String) : String :=
  let lowered := (strLower value).data
  let spaced := lowered.map (fun c => if isLowerAlnum c then c else ' ')
  let cleaned := trimSpaces (collapseSpaces spaced)
  ⟨collapseSpaces cleaned⟩

def _ALIAS_REPLACEMENTS : List (String × List String) :=
  [("bedroom", ["bedroom", "bed"]),
   ("living room", ["living room", "living"]),
   ("lamp", ["lamp", "light"]),
   ("lights", ["lights", "light"]),
   ("desk", ["desk", "office"]),
   ("coffee", ["coffee", "coffee machine"])]

def _DOMAIN_PREFERENCE : List String :=
  ["light", "switch", "fan", "climate", "cover", "media_player", "scene", "script"]

def _expand_alias (base : String) : List String :=
  let expanded := base :: _ALIAS_REPLACEMENTS.foldl
    (fun acc kr =>
      if strContains base kr.1 then
        acc ++ kr.2.map (fun replacement => strReplace base kr.1 replacement)
      else acc) []
  expanded.map _normalise_text

/-- `entity_id.split(".", 1)[-1]`. -/
def objectIdOf (s : String) : String :=
  match splitOnChar '.' s.data with
  | [] => s
  | [x] => ⟨x⟩
  | _ :: rest => ⟨joinWithDot rest⟩

/-- `entity_id.split(".")[0]`. -/
def domainOf (s : String) : String :=
  ⟨(splitOnChar '.' s.data).headD s.data⟩

def _build_alias_cache (devices : List (String × String)) : List (String × List String) :=
  devices.map (fun dev =>
    let entity_id := dev.1
    let friendly := dev.2
    let alias_set :=
      _expand_alias (_normalise_text (objectIdOf entity_id))
        ++ (if friendly ≠ "" then _expand_alias (_normalise_text friendly) else [])
        ++ [_normalise_text (domainOf entity_id)]
    (entity_id, alias_set.filter (fun a => !a.data.isEmpty)))

def domainPriority (domain : String) : ℕ :=
  match _DOMAIN_PREFERENCE.findIdx? (fun d => d = domain) with
  | some i => i
  | none => _DOMAIN_PREFERENCE.length

def _extract_device (text : String) (devices : List (String × String)) : String :=
  let search_text := _normalise_text text
  let aliases := _build_alias_cache devices
  let best := aliases.foldl
    (fun (best : Option String × ℕ) entry =>
      if entry.2.isEmpty then best
      else if entry.2.any (fun candidate => strContains search_text candidate) then
        let priority := domainPriority (domainOf entry.1)
        match best.1 with
        | none => (some entry.1, priority)
        | some _ => if priority < best.2 then (some entry.1, priority) else best
      else best)
    ((none : Option String), _DOMAIN_PREFERENCE.length)
  match best.1 with
  | some best_match => best_match
  | none =>
    let climate_hit : Option String :=
      if strContains search_text "thermostat" || strContains search_text "temperature" then
        (aliases.find? (fun e => strStartsWith e.1 "climate.")).map (fun e => e.1)
      else none
    match climate_hit with
    | some entity_id => entity_id
    | none =>
      if strContains search_text "garage" && aliases.any (fun e => strStartsWith e.1 "cover.") then
        ((aliases.find? (fun e => strStartsWith e.1 "cover.")).map (fun e => e.1)).getD "unknown"
      else "unknown"

/-! ### backend/app/api/routes.py — mock-JSON `POST /execute` (claim C9)

The devices state file is a JSON list of entity objects; an absent file
(FileNotFoundError) is `none`.  The endpoint answers every request with an
HTTP 200 dictionary — the `Except Nat` layer, mirroring the HTTPException
channel the other endpoints use, is therefore always `.ok`.  The result also
records the file contents after the call and whether the file was written. -/

inductive JVal where
  | str : String → JVal
  | num : ℚ → JVal
  | boolean : Bool → JVal
  deriving Repr, DecidableEq

inductive JAttrs where
  | dict : List (String × JVal) → JAttrs
  | nondict : JVal → JAttrs
  deriving Repr, DecidableEq

structure JEntity where
  entity_id : Option String := none
  state : Option JVal := none
  attributes : Option JAttrs := none
  deriving Repr, DecidableEq

/-- Python dict assignment `d[k] = v`: overwrite in place or append. -/
def setKey : List (String × JVal) → String → JVal → List (String × JVal)
  | [], k, v => [(k, v)]
  | kv0 :: rest, k, v =>
      if kv0.1 = k then (k, v) :: rest else kv0 :: setKey rest k v

def isStrState : Option JVal → Bool
  | some (.str _) => true
  | _ => false

def toggleState : Option JVal → Option JVal
  | some (.str s) => some (.str (if s = "on" then "off" else "on"))
  | v => v

def applyDataOverrides (e : JEntity) (data : List (String × JVal)) : JEntity :=
  let e :=
    match data.lookup "state" with
    | some v => { e with state := some v }
    | none => e
  let attrs := e.attributes.getD (.dict [])
  let attrs := data.foldl
    (fun a kv =>
      if kv.1 = "state" then a
      else
        match a with
        | .dict l => .dict (setKey l kv.1 kv.2)
        | .nondict v => .nondict v)
    attrs
  { e with attributes := some attrs }

def applyServiceToEntity (e : JEntity) (service_lower : String)
    (data : Option (List (String × JVal))) : JEntity :=
  let e :=
    if strEndsWith service_lower "toggle" && isStrState e.state then
      { e with state := toggleState e.state }
    else if strEndsWith service_lower "turn_on" then { e with state := some (.str "on") }
    else if strEndsWith service_lower "turn_off" then { e with state := some (.str "off") }
    else e
  match data with
  | none => e
  | some d => if d.isEmpty then e else applyDataOverrides e d

def updateFirstEntity (cmd_entity_id : String) (service_lower : String)
    (data : Option (List (String × JVal))) :
    List JEntity → Option (List JEntity × JEntity)
  | [] => none
  | e :: rest =>
      if e.entity_id = some cmd_entity_id then
        let e2 := applyServiceToEntity e service_lower data
        some (e2 :: rest, e2)
      else
        (updateFirstEntity cmd_entity_id service_lower data rest).map
          (fun p => (e :: p.1, p.2))

inductive ExecBody where
  | errorBody (message : String)
  | okBody (entity : JEntity)
  deriving Repr, DecidableEq

structure ExecuteOutcome where
  body : ExecBody
  file_after : Option (List JEntity)
  wrote : Bool
  deriving Repr, DecidableEq

def execute_command (file : Option (List JEntity)) (cmd_entity_id : String)
    (cmd_service : String) (cmd_data : Option (List (String × JVal))) :
    Except Nat ExecuteOutcome :=
  .ok <|
    match file with
    | none => ⟨.errorBody "Devices state file not found", none, false⟩
    | some devices =>
      match updateFirstEntity cmd_entity_id (strLower cmd_service) cmd_data devices with
      | none =>
          ⟨.errorBody ("No entity found with id " ++ cmd_entity_id), some devices, false⟩
      | some p => ⟨.okBody p.2, some p.1, true⟩

/-! ### backend/app/api/dashboard.py — `PATCH /dashboard/approvals/{id}`
(claim C10)

The dashboard document is embedded as its approval queue plus an opaque rest
(operation mode, chat history, vitals, ...).  The handler loads the document,
walks the queue with for/break/else, 404s without saving when no id matches,
and otherwise overwrites the first matching item's status and saves through
`StateStore.save_dashboard` / `_write_json`.  The result pairs the HTTP
outcome with the persisted document after the call. -/

structure ApprovalItem where
  id : String
  status : String
  rest : List (String × String) := []
  deriving Repr, DecidableEq

structure DashboardDoc where
  approval_queue : List ApprovalItem
  rest : List (String × String) := []
  deriving Repr, DecidableEq

def updateFirstApproval : List ApprovalItem → String → String → Option (List ApprovalItem)
  | [], _, _ => none
  | it :: tail, item_id, st =>
      if it.id = item_id then some ({ it with status := st } :: tail)
      else (updateFirstApproval tail item_id st).map (it :: ·)

def update_approval_queue (store : DashboardDoc) (item_id new_status : String) :
    Except Nat DashboardDoc × DashboardDoc :=
  match updateFirstApproval store.approval_queue item_id new_status with
  | none => (.error 404, store)
  | some q =>
      let doc := { store with approval_queue := q }
      (.ok doc, doc)

/-! ## Helper lemmas about Python rounding -/

theorem pyRHE_ge_floor (x : ℚ) : ⌊x⌋ ≤ pyRoundHalfEven x := by
  simp only [pyRoundHalfEven]
  split_ifs <;> omega

theorem pyRHE_le_floor_add_one (x : ℚ) : pyRoundHalfEven x ≤ ⌊x⌋ + 1 := by
  simp only [pyRoundHalfEven]
  split_ifs <;> omega

theorem pyRHE_mono {x y : ℚ} (h : x ≤ y) : pyRoundHalfEven x ≤ pyRoundHalfEven y := by
  rcases lt_or_eq_of_le (Int.floor_mono h) with hlt | heq
  · have h1 := pyRHE_le_floor_add_one x
    have h2 := pyRHE_ge_floor y
    omega
  · simp only [pyRoundHalfEven]
    rw [← heq]
    have hxy : x - (⌊x⌋ : ℚ) ≤ y - (⌊x⌋ : ℚ) := by linarith
    split_ifs <;> first | omega | (exfalso; linarith)

theorem pyRHE_intCast (k : ℤ) : pyRoundHalfEven (k : ℚ) = k := by
  unfold pyRoundHalfEven
  rw [Int.floor_intCast]
  norm_num

theorem pyRHE_nonneg {x : ℚ} (h : 0 ≤ x) : 0 ≤ pyRoundHalfEven x := by
  have h1 := pyRHE_mono (show ((0 : ℤ) : ℚ) ≤ x by exact_mod_cast h)
  rw [pyRHE_intCast 0] at h1
  exact h1

theorem pyRHE_eq_of_lt_half {x : ℚ} {k : ℤ} (h1 : (k : ℚ) ≤ x) (h2 : x < (k : ℚ) + 1/2) :
    pyRoundHalfEven x = k := by
  have hf : ⌊x⌋ = k := Int.floor_eq_iff.mpr ⟨h1, by linarith⟩
  unfold pyRoundHalfEven
  rw [hf, if_pos (by linarith)]

theorem pyRHE_eq_of_gt_half {x : ℚ} {k : ℤ} (h1 : (k : ℚ) + 1/2 < x) (h2 : x < (k : ℚ) + 1) :
    pyRoundHalfEven x = k + 1 := by
  have hf : ⌊x⌋ = k := Int.floor_eq_iff.mpr ⟨by linarith, by linarith⟩
  unfold pyRoundHalfEven
  rw [hf, if_neg (by linarith), if_pos (by linarith)]

theorem pyRound1_intCast (k : ℤ) : pyRound1 (k : ℚ) = k := by
  unfold pyRound1
  rw [show (10 : ℚ) * k = ((10 * k : ℤ) : ℚ) by push_cast; ring, pyRHE_intCast]
  push_cast
  ring

theorem pyRound1_ge_grid {j : ℤ} {x : ℚ} (h : (j : ℚ)/10 ≤ x) : (j : ℚ)/10 ≤ pyRound1 x := by
  have h10 : ((j : ℤ) : ℚ) ≤ 10 * x := by linarith
  have hm := pyRHE_mono h10
  rw [pyRHE_intCast] at hm
  have : (j : ℚ) ≤ (pyRoundHalfEven (10 * x) : ℚ) := by exact_mod_cast hm
  unfold pyRound1
  linarith

theorem pyRound1_le_grid {j : ℤ} {x : ℚ} (h : x ≤ (j : ℚ)/10) : pyRound1 x ≤ (j : ℚ)/10 := by
  have h10 : 10 * x ≤ ((j : ℤ) : ℚ) := by linarith
  have hm := pyRHE_mono h10
  rw [pyRHE_intCast] at hm
  have : (pyRoundHalfEven (10 * x) : ℚ) ≤ (j : ℚ) := by exact_mod_cast hm
  unfold pyRound1
  linarith

/-! ## Evaluation and monotonicity helpers for the HVAC timing model -/

theorem calc_time_eval (c t s : ℚ) (u : ℤ) (o : ℚ)
    (h1 : ¬(|c - t| < 1/2)) (hs : ¬(s = 0))
    (hA : ¬(1/20 * (u : ℚ) * 1000 / s * max (3/10) (1 - |o - t| * (1/100)) = 0)) :
    SmartThermostat.calculate_time_to_temperature c t s u o =
      some (pyRoundHalfEven
        (|t - c| / (1/20 * (u : ℚ) * 1000 / s * max (3/10) (1 - |o - t| * (1/100))))) := by
  simp only [SmartThermostat.calculate_time_to_temperature, ite_self]
  rw [if_neg h1, if_neg hs, if_neg hA]

/-! ## Clamp, rate-limit, round helpers for the comfort optimizer -/

theorem round_keeps_grid_bounds (p : ℚ) (k : ℤ)
    (h1 : 68 ≤ p) (h2 : p ≤ 82) (h3 : (k : ℚ)/10 - 2 ≤ p) (h4 : p ≤ (k : ℚ)/10 + 2) :
    68 ≤ pyRound1 p ∧ pyRound1 p ≤ 82 ∧ |pyRound1 p - (k : ℚ)/10| ≤ 2 := by
  have g1 := pyRound1_ge_grid (j := 680) (x := p) (by push_cast; linarith)
  have g2 := pyRound1_le_grid (j := 820) (x := p) (by push_cast; linarith)
  have g3 := pyRound1_ge_grid (j := k - 20) (x := p) (by push_cast; linarith)
  have g4 := pyRound1_le_grid (j := k + 20) (x := p) (by push_cast; linarith)
  push_cast at g1 g2 g3 g4
  exact ⟨by linarith, by linarith, abs_le.mpr ⟨by linarith, by linarith⟩⟩

theorem clamp_smooth_round_bounds (x : ℚ) (k : ℤ) (hk1 : 660 ≤ k) (hk2 : k ≤ 840) :
    68 ≤ pyRound1 (if |max 68 (min 82 x) - (k : ℚ)/10| > 2 then
        (if max 68 (min 82 x) > (k : ℚ)/10 then (k : ℚ)/10 + 2 else (k : ℚ)/10 - 2)
      else max 68 (min 82 x)) ∧
    pyRound1 (if |max 68 (min 82 x) - (k : ℚ)/10| > 2 then
        (if max 68 (min 82 x) > (k : ℚ)/10 then (k : ℚ)/10 + 2 else (k : ℚ)/10 - 2)
      else max 68 (min 82 x)) ≤ 82 ∧
    |pyRound1 (if |max 68 (min 82 x) - (k : ℚ)/10| > 2 then
        (if max 68 (min 82 x) > (k : ℚ)/10 then (k : ℚ)/10 + 2 else (k : ℚ)/10 - 2)
      else max 68 (min 82 x)) - (k : ℚ)/10| ≤ 2 := by
  have h68 : (68 : ℚ) ≤ max 68 (min 82 x) := le_max_left _ _
  have h82 : max (68 : ℚ) (min 82 x) ≤ 82 := max_le (by norm_num) (min_le_left _ _)
  have hcur1 : (66 : ℚ) ≤ (k : ℚ)/10 := by
    have : (660 : ℚ) ≤ (k : ℚ) := by exact_mod_cast hk1
    linarith
  have hcur2 : (k : ℚ)/10 ≤ 84 := by
    have : (k : ℚ) ≤ 840 := by exact_mod_cast hk2
    linarith
  have hp : (68 : ℚ) ≤ (if |max 68 (min 82 x) - (k : ℚ)/10| > 2 then
        (if max 68 (min 82 x) > (k : ℚ)/10 then (k : ℚ)/10 + 2 else (k : ℚ)/10 - 2)
      else max 68 (min 82 x)) ∧
      (if |max 68 (min 82 x) - (k : ℚ)/10| > 2 then
        (if max 68 (min 82 x) > (k : ℚ)/10 then (k : ℚ)/10 + 2 else (k : ℚ)/10 - 2)
      else max 68 (min 82 x)) ≤ 82 ∧
      (k : ℚ)/10 - 2 ≤ (if |max 68 (min 82 x) - (k : ℚ)/10| > 2 then
        (if max 68 (min 82 x) > (k : ℚ)/10 then (k : ℚ)/10 + 2 else (k : ℚ)/10 - 2)
      else max 68 (min 82 x)) ∧
      (if |max 68 (min 82 x) - (k : ℚ)/10| > 2 then
        (if max 68 (min 82 x) > (k : ℚ)/10 then (k : ℚ)/10 + 2 else (k : ℚ)/10 - 2)
      else max 68 (min 82 x)) ≤ (k : ℚ)/10 + 2 := by
    split_ifs with hA hB
    · rw [abs_of_pos (by linarith)] at hA
      exact ⟨by linarith, by linarith, by linarith, by linarith⟩
    · rw [abs_of_nonpos (by linarith)] at hA
      exact ⟨by linarith, by linarith, by linarith, by linarith⟩
    · have hle := abs_le.mp (not_lt.mp hA)
      exact ⟨h68, h82, by linarith [hle.1], by linarith [hle.2]⟩
  obtain ⟨q1, q2, q3, q4⟩ := hp
  exact round_keeps_grid_bounds _ k q1 q2 q3 q4

/-! ## First-match helpers for the execute and approval endpoints -/

theorem updateFirstEntity_eq_none (eid sl : String) (data : Option (List (String × JVal)))
    (l : List JEntity) (h : ∀ e ∈ l, e.entity_id ≠ some eid) :
    updateFirstEntity eid sl data l = none := by
  induction l with
  | nil => rfl
  | cons e rest ih =>
      simp only [updateFirstEntity]
      rw [if_neg (h e (List.mem_cons_self e rest)),
        ih (fun e2 he2 => h e2 (List.mem_cons_of_mem e he2))]
      rfl

theorem updateFirstApproval_eq_none {l : List ApprovalItem} {item_id st : String}
    (h : ∀ it ∈ l, it.id ≠ item_id) : updateFirstApproval l item_id st = none := by
  induction l with
  | nil => rfl
  | cons it rest ih =>
      simp only [updateFirstApproval]
      rw [if_neg (h it (List.mem_cons_self it rest)),
        ih (fun j hj => h j (List.mem_cons_of_mem it hj))]
      rfl

theorem updateFirstApproval_found (pre : List ApprovalItem) (it : ApprovalItem)
    (post : List ApprovalItem) (item_id st : String)
    (hpre : ∀ j ∈ pre, j.id ≠ item_id) (hit : it.id = item_id) :
    updateFirstApproval (pre ++ it :: post) item_id st =
      some (pre ++ { it with status := st } :: post) := by
  induction pre with
  | nil =>
      simp only [List.nil_append, updateFirstApproval]
      rw [if_pos hit]
  | cons j rest ih =>
      simp only [List.cons_append, updateFirstApproval, List.append_eq]
      rw [if_neg (hpre j (List.mem_cons_self j rest)),
        ih (fun j2 hj2 => hpre j2 (List.mem_cons_of_mem j hj2))]
      rfl

/-! ## Claim theorems -/

/-- Claim C1 (code side): evaluating `Guardrail.enforce` at the inputs of the
repository test suite.  A guardrail with `allowed_actions = ["set_temperature"]`
(the `target_devices` keyword of the test is silently dropped by pydantic)
permits `set_temperature` on the thermostat and rejects `turn_off` on the
thermostat, but it also rejects `turn_on` on the unrelated light: the
allowed-actions check applies to every device, so the third test of
`tests/test_guardrail_enforcement.py` fails against this code. -/
theorem guardrail_allowed_actions_ignores_device_targeting :
    (Guardrail.enforce
        { id := "thermostat-allowed-actions", name := "Thermostat safety",
          allowed_actions := some ["set_temperature"] }
        { device_id := "hallway-thermostat", action := "set_temperature",
          parameters := [("temperature", 23)] }
        { id := "hallway-thermostat", name := "Hallway Thermostat", type := "thermostat" }
      = .ok ()) ∧
    (Guardrail.enforce
        { id := "thermostat-allowed-actions", name := "Thermostat safety",
          allowed_actions := some ["set_temperature"] }
        { device_id := "hallway-thermostat", action := "turn_off" }
        { id := "hallway-thermostat", name := "Hallway Thermostat", type := "thermostat" }
      = .error ⟨"thermostat-allowed-actions",
          "Action turn_off is not permitted by guardrail Thermostat safety."⟩) ∧
    (Guardrail.enforce
        { id := "thermostat-allowed-actions", name := "Thermostat safety",
          allowed_actions := some ["set_temperature"] }
        { device_id := "living-room-light", action := "turn_on" }
        { id := "living-room-light", name := "Living Room Light", type := "light" }
      = .error ⟨"thermostat-allowed-actions",
          "Action turn_on is not permitted by guardrail Thermostat safety."⟩) := by
  refine ⟨?_, ?_, ?_⟩ <;> rfl

/-- Claim C2, counterexample: at humidity 0, outdoor 70, occupancy 0,
current temperature 60 (inside the ranges the claim quantifies over; hour 20,
default doors and blinds, so the sine value is irrelevant), the optimizer
returns 62.0, which is outside [68, 82]: the rate limiter pulls the clamped
target back toward the low current temperature. -/
theorem enhanced_optimal_temperature_escapes_bounds :
    (calculate_enhanced_optimal_temperature 0 0 70 0 60 20 0 10 .OPEN).map
        EnhancedOptResult.optimal_temperature = some 62 ∧
    ¬((68 : ℚ) ≤ 62) := by
  have h62 : pyRound1 62 = 62 := by
    rw [show (62 : ℚ) = ((62 : ℤ) : ℚ) by norm_num, pyRound1_intCast]
  constructor
  · norm_num [calculate_enhanced_optimal_temperature, determine_routine_state,
      calculate_sunlight_impact, calculate_door_airflow_effect, BlindPosition.val, h62]
  · norm_num

/-- Claim C2, amended: for every humidity in [0, 100], outdoor temperature in
[-20, 120], occupancy in [0, 10], and every one-decimal current temperature
k/10 with k in [660, 840] (that is, current in [66, 84] instead of the claimed
[60, 90]), the returned optimal temperature lies in [68, 82] and differs from
the current temperature by at most 2.0.  The result holds for every hour,
door configuration with a positive door total (or no open door), blind
position and sine value. -/
theorem enhanced_optimal_temperature_bounds (sinVal humidity outside : ℚ) (occ : ℤ)
    (k hour doors total : ℤ) (blinds : BlindPosition)
    (hhum1 : 0 ≤ humidity) (hhum2 : humidity ≤ 100)
    (hout1 : -20 ≤ outside) (hout2 : outside ≤ 120)
    (hocc1 : 0 ≤ occ) (hocc2 : occ ≤ 10)
    (hk1 : 660 ≤ k) (hk2 : k ≤ 840)
    (hdoors : doors = 0 ∨ total ≠ 0) :
    ∃ res, calculate_enhanced_optimal_temperature sinVal humidity outside occ ((k : ℚ)/10)
        hour doors total blinds = some res ∧
      68 ≤ res.optimal_temperature ∧ res.optimal_temperature ≤ 82 ∧
      |res.optimal_temperature - (k : ℚ)/10| ≤ 2 := by
  have hdoor : ∃ de, calculate_door_airflow_effect doors total outside ((k : ℚ)/10) = some de := by
    by_cases hz : doors = 0
    · exact ⟨0, by simp [calculate_door_airflow_effect, hz]⟩
    · rcases hdoors with h | h
      · exact absurd h hz
      · refine ⟨(outside - (k : ℚ)/10) * min ((doors : ℚ)/(total : ℚ)) 1 * (3/10), ?_⟩
        simp only [calculate_door_airflow_effect]
        rw [if_neg hz, if_neg h]
  obtain ⟨de, hde⟩ := hdoor
  simp only [calculate_enhanced_optimal_temperature, hde]
  refine ⟨_, rfl, ?_, ?_, ?_⟩ <;>
    first
      | exact (clamp_smooth_round_bounds _ k hk1 hk2).1
      | exact (clamp_smooth_round_bounds _ k hk1 hk2).2.1
      | exact (clamp_smooth_round_bounds _ k hk1 hk2).2.2

/-- Claim C2, witness: the amended bound theorem evaluated at humidity 50,
outdoor 70, occupancy 2, current temperature 72.0, hour 20. -/
theorem enhanced_optimal_temperature_bounds_witness :
    ∃ res, calculate_enhanced_optimal_temperature 0 50 70 2 (((720 : ℤ) : ℚ)/10)
        20 0 10 .OPEN = some res ∧
      68 ≤ res.optimal_temperature ∧ res.optimal_temperature ≤ 82 ∧
      |res.optimal_temperature - ((720 : ℤ) : ℚ)/10| ≤ 2 :=
  enhanced_optimal_temperature_bounds 0 50 70 2 720 20 0 10 .OPEN
    (by norm_num) (by norm_num) (by norm_num) (by norm_num) (by norm_num) (by norm_num)
    (by norm_num) (by norm_num) (Or.inl rfl)

/-- Claim C3, counterexample: with square footage 1200, one unit and outdoor
95, moving the target from 72 to 89 increases the distance to the current
temperature 80 from 8 to 9 degrees, yet the computed minutes drop from 249 to
230, because the outdoor factor depends on the target: the claim as stated
(monotonicity in the absolute target distance for every fixed outdoor and
current temperature) is false. -/
theorem time_to_temperature_not_monotone_across_sides :
    |(72 : ℚ) - 80| ≤ |(89 : ℚ) - 80| ∧
    SmartThermostat.calculate_time_to_temperature 80 72 1200 1 95 = some 249 ∧
    SmartThermostat.calculate_time_to_temperature 80 89 1200 1 95 = some 230 ∧
    (230 : ℤ) < 249 := by
  have ha1 : |(80 : ℚ) - 72| = 8 := by rw [abs_of_nonneg (by norm_num)]; norm_num
  have ha1A : |(72 : ℚ) - 80| = 8 := by rw [abs_of_nonpos (by norm_num)]; norm_num
  have ha2 : |(95 : ℚ) - 72| = 23 := by rw [abs_of_nonneg (by norm_num)]; norm_num
  have hb1 : |(80 : ℚ) - 89| = 9 := by rw [abs_of_nonpos (by norm_num)]; norm_num
  have hb1A : |(89 : ℚ) - 80| = 9 := by rw [abs_of_nonneg (by norm_num)]; norm_num
  have hb2 : |(95 : ℚ) - 89| = 6 := by rw [abs_of_nonneg (by norm_num)]; norm_num
  have hm1 : max ((3 : ℚ)/10) (1 - 23 * (1/100)) = 77/100 := by
    rw [max_eq_right (by norm_num)]; norm_num
  have hm2 : max ((3 : ℚ)/10) (1 - 6 * (1/100)) = 94/100 := by
    rw [max_eq_right (by norm_num)]; norm_num
  refine ⟨by rw [ha1A, hb1A]; norm_num, ?_, ?_, by norm_num⟩
  · rw [calc_time_eval 80 72 1200 1 95 (by rw [ha1]; norm_num) (by norm_num)
      (by rw [ha2, hm1]; norm_num)]
    rw [ha1A, ha2, hm1,
      show ((8 : ℚ) / (1/20 * ((1 : ℤ) : ℚ) * 1000 / 1200 * (77/100))) = 19200/77 by
        push_cast; norm_num]
    rw [pyRHE_eq_of_lt_half (k := 249) (by norm_num) (by norm_num)]
  · rw [calc_time_eval 80 89 1200 1 95 (by rw [hb1]; norm_num) (by norm_num)
      (by rw [hb2, hm2]; norm_num)]
    rw [hb1A, hb2, hm2,
      show ((9 : ℚ) / (1/20 * ((1 : ℤ) : ℚ) * 1000 / 1200 * (94/100))) = 10800/47 by
        push_cast; norm_num]
    rw [show (230 : ℤ) = 229 + 1 by norm_num,
      pyRHE_eq_of_gt_half (k := 229) (by norm_num) (by norm_num)]

/-- Claim C3, amended: the monotonicity does hold in the cooling direction of
the spec example: for a positive square footage, at least one unit, outdoor at
or above the current temperature and two targets at or below the current
temperature, moving the target further below the current temperature cannot
decrease the computed minutes. -/
theorem time_to_temperature_monotone_cooling (square_footage : ℚ) (num_units : ℤ)
    (outdoor current t1 t2 : ℚ)
    (hs : 0 < square_footage) (hu : 0 < num_units)
    (hco : current ≤ outdoor) (ht1 : t1 ≤ current) (ht2 : t2 ≤ t1) :
    ∃ n1 n2,
      SmartThermostat.calculate_time_to_temperature current t1 square_footage num_units outdoor
          = some n1 ∧
      SmartThermostat.calculate_time_to_temperature current t2 square_footage num_units outdoor
          = some n2 ∧
      n1 ≤ n2 := by
  have huq : (0 : ℚ) < (num_units : ℚ) := by exact_mod_cast hu
  have hR : 0 < 1/20 * (num_units : ℚ) * 1000 / square_footage := by positivity
  have hfpos : ∀ t : ℚ, (0 : ℚ) < max (3/10) (1 - (outdoor - t) * (1/100)) := fun t =>
    lt_of_lt_of_le (by norm_num) (le_max_left _ _)
  have evalZero : ∀ t : ℚ, |current - t| < 1/2 →
      SmartThermostat.calculate_time_to_temperature current t square_footage num_units outdoor
        = some 0 := by
    intro t h
    simp only [SmartThermostat.calculate_time_to_temperature]
    rw [if_pos h]
  have evalPos : ∀ t : ℚ, t ≤ current → ¬(|current - t| < 1/2) →
      SmartThermostat.calculate_time_to_temperature current t square_footage num_units outdoor
        = some (pyRoundHalfEven ((current - t) /
            (1/20 * (num_units : ℚ) * 1000 / square_footage *
              max (3/10) (1 - (outdoor - t) * (1/100))))) := by
    intro t ht h
    have hoabs : |outdoor - t| = outdoor - t := abs_of_nonneg (by linarith)
    rw [calc_time_eval current t square_footage num_units outdoor h (ne_of_gt hs)
      (by rw [hoabs]; exact (mul_pos hR (hfpos t)).ne')]
    rw [abs_sub_comm t current, abs_of_nonneg (by linarith : (0 : ℚ) ≤ current - t), hoabs]
  by_cases h1 : |current - t1| < 1/2
  · by_cases h2 : |current - t2| < 1/2
    · exact ⟨0, 0, evalZero t1 h1, evalZero t2 h2, le_refl 0⟩
    · refine ⟨0, _, evalZero t1 h1, evalPos t2 (le_trans ht2 ht1) h2, ?_⟩
      exact pyRHE_nonneg (div_nonneg (by linarith [le_trans ht2 ht1])
        (le_of_lt (mul_pos hR (hfpos t2))))
  · have h2 : ¬(|current - t2| < 1/2) := by
      rw [abs_of_nonneg (by linarith : (0 : ℚ) ≤ current - t1)] at h1
      rw [abs_of_nonneg (by linarith [le_trans ht2 ht1] : (0 : ℚ) ≤ current - t2)]
      intro hc
      exact h1 (by linarith)
    refine ⟨_, _, evalPos t1 ht1 h1, evalPos t2 (le_trans ht2 ht1) h2, pyRHE_mono ?_⟩
    have hf : max ((3 : ℚ)/10) (1 - (outdoor - t2) * (1/100)) ≤
        max ((3 : ℚ)/10) (1 - (outdoor - t1) * (1/100)) :=
      max_le_max (le_refl _) (by linarith)
    exact div_le_div₀ (by linarith [le_trans ht2 ht1]) (by linarith)
      (mul_pos hR (hfpos t2)) (mul_le_mul_of_nonneg_left hf (le_of_lt hR))

/-- Claim C3, witness: the cooling monotonicity applied to the spec example,
current 80, targets 72 and 65, square footage 1200, one unit, outdoor 95. -/
theorem time_to_temperature_monotone_cooling_witness :
    ∃ n1 n2,
      SmartThermostat.calculate_time_to_temperature 80 72 1200 1 95 = some n1 ∧
      SmartThermostat.calculate_time_to_temperature 80 65 1200 1 95 = some n2 ∧
      n1 ≤ n2 :=
  time_to_temperature_monotone_cooling 1200 1 95 80 72 65 (by norm_num) (by norm_num)
    (by norm_num) (by norm_num) (by norm_num)

/-- Claim C4: whenever the current temperature is within 0.5 degrees of the
target, `calculate_time_to_temperature` returns exactly 0 for every square
footage (including 0), every unit count and every outdoor temperature; the
short circuit fires before the rate computation, so no division is reached
(with square footage 0 any later path would be a ZeroDivisionError, embedded
as `none`). -/
theorem time_to_temperature_short_circuit (current_temp target_temp square_footage : ℚ)
    (num_cooling_units : ℤ) (outdoor_temp : ℚ)
    (h : |current_temp - target_temp| < 1/2) :
    SmartThermostat.calculate_time_to_temperature current_temp target_temp square_footage
      num_cooling_units outdoor_temp = some 0 := by
  unfold SmartThermostat.calculate_time_to_temperature
  rw [if_pos h]

/-- Claim C4, witness: the spec example 72.2 versus 72.0, with square footage
0, five units and outdoor 100. -/
theorem time_to_temperature_short_circuit_witness :
    |(361/5 : ℚ) - 72| < 1/2 ∧
    SmartThermostat.calculate_time_to_temperature (361/5) 72 0 5 100 = some 0 := by
  have h : |(361/5 : ℚ) - 72| < 1/2 := by
    rw [show (361/5 : ℚ) - 72 = 1/5 by norm_num, abs_of_nonneg (by norm_num)]
    norm_num
  exact ⟨h, time_to_temperature_short_circuit _ _ _ _ _ h⟩

/-- Claim C5: for a daily schedule entry with run time "07:00", the next
occurrence computed at 06:00 of any day is 07:00 of the same day, and at
08:00 it is 07:00 of the following day. -/
theorem next_daily_occurrence_seven_am (d : ℤ) :
    _next_daily_occurrence "07:00" ⟨d, 6, 0, 0, 0⟩ = ⟨d, 7, 0, 0, 0⟩ ∧
    _next_daily_occurrence "07:00" ⟨d, 8, 0, 0, 0⟩ = ⟨d + 1, 7, 0, 0, 0⟩ := by
  have hp : parseHHMM "07:00" = some (7, 0) := by decide
  constructor
  · simp only [_next_daily_occurrence, hp]
    rw [if_neg (by simp only [PyDateTime.key]; push_cast; omega)]
  · simp only [_next_daily_occurrence, hp]
    rw [if_pos (by simp only [PyDateTime.key]; push_cast; omega)]
    simp [PyDateTime.addDays]

/-- Claim C6, counterexample: with the mock flag enabled but no base URL and
no token configured (the configuration default), `check_ha_connection`
returns `false`, not `true`: the credentials check precedes the mock short
circuit. -/
theorem check_ha_connection_false_without_config :
    (HAThermostatService.check_ha_connection (HAThermostatService.init none none) true true).1
        = false ∧
    (HAThermostatService.check_ha_connection (HAThermostatService.init none none) true false).1
        = false := by
  refine ⟨?_, ?_⟩ <;> rfl

/-- Claim C6, amended: when the mock flag is enabled and both the stored base
URL and the token are truthy, `check_ha_connection` returns `true` without
performing the network call, for either outcome the network would give. -/
theorem check_ha_connection_mock_short_circuit (ha_base_url ha_token : Option String)
    (network_ok : Bool)
    (hurl : pyTruthy (HAThermostatService.init ha_base_url ha_token).ha_url = true)
    (htok : pyTruthy (HAThermostatService.init ha_base_url ha_token).ha_token = true) :
    HAThermostatService.check_ha_connection (HAThermostatService.init ha_base_url ha_token)
      true network_ok = (true, false) := by
  unfold HAThermostatService.check_ha_connection
  rw [if_neg (by simp [hurl, htok]), if_pos rfl]

/-- Claim C6, witness: a configured URL (with a trailing slash stripped) and
token in mock mode with a failing network. -/
theorem check_ha_connection_mock_short_circuit_witness :
    HAThermostatService.check_ha_connection
      (HAThermostatService.init (some "http://assistant.local/") (some "token-abc"))
      true false = (true, false) :=
  check_ha_connection_mock_short_circuit (some "http://assistant.local/") (some "token-abc")
    false (by decide) (by decide)

/-- Claim C7, counterexample: `apply` with action `set_brightness` on a device
whose power is "off" leaves the power "off" (the source keeps the existing
power and only defaults to "on" when the key is absent), while the claim says
the resulting power is always "on"; the brightness 150 is clamped to 100. -/
theorem mock_apply_set_brightness_keeps_power_off :
    MockHomeAssistantClient.apply "light.demo" { power := some "off" } "set_brightness"
        { brightness := some 150 } "2024-01-01T00:00:00" =
      .ok { power := some "off", brightness := some 100,
            last_synced := some "2024-01-01T00:00:00" } ∧
    (some "off" : Option String) ≠ some "on" := by
  exact ⟨rfl, by decide⟩

/-- Claim C7, amended: `set_brightness` keeps the existing power value,
defaulting to "on" only when the device has no power key, and sets the
brightness to the parameter clamped to [0, 100] (defaulting to 100);
`set_temperature` overwrites the temperature with the parameter, defaulting
to the existing device value (21 when absent); any other action than the four
supported ones is rejected as unsupported. -/
theorem mock_apply_action_semantics (device_id : String) (st : MockDeviceState)
    (params : MockParams) (now : String) :
    (MockHomeAssistantClient.apply device_id st "set_brightness" params now =
      .ok { st with power := some (st.power.getD "on"),
                    brightness := some (max 0 (min 100 (params.brightness.getD 100))),
                    last_synced := some now }) ∧
    (MockHomeAssistantClient.apply device_id st "set_temperature" params now =
      .ok { st with temperature := some (params.temperature.getD (st.temperature.getD 21)),
                    last_synced := some now }) ∧
    (∀ action : String, action ≠ "turn_on" → action ≠ "turn_off" →
      action ≠ "set_brightness" → action ≠ "set_temperature" →
      MockHomeAssistantClient.apply device_id st action params now =
        .error ("Unsupported action " ++ action ++ " for device " ++ device_id ++ ".")) := by
  refine ⟨rfl, rfl, ?_⟩
  intro action h1 h2 h3 h4
  unfold MockHomeAssistantClient.apply
  rw [if_neg h1, if_neg h2, if_neg h3, if_neg h4]

/-- Claim C7, witness: the unsupported-action branch of the semantics theorem
at the concrete action `open_valve`. -/
theorem mock_apply_action_semantics_witness :
    MockHomeAssistantClient.apply "light.demo" { power := some "off", brightness := some 40 }
        "open_valve" { } "2024-01-01T00:00:00" =
      .error "Unsupported action open_valve for device light.demo." :=
  (mock_apply_action_semantics "light.demo" { power := some "off", brightness := some 40 }
      { } "2024-01-01T00:00:00").2.2 "open_valve" (by decide) (by decide) (by decide) (by decide)

/-- Claim C8, counterexample: with exactly `light.bedroom_lamp` and
`switch.bedroom_fan_plug` in the alias cache (no friendly names), the phrase
"turn on the bedroom" resolves to "unknown", not to the light: every cached
alias is a full normalised device name ("bedroom lamp", "bed lamp",
"bedroom light", "light", ...), and none of them occurs as a substring of the
phrase. -/
theorem extract_device_bedroom_unknown :
    _extract_device "turn on the bedroom"
        [("light.bedroom_lamp", ""), ("switch.bedroom_fan_plug", "")] = "unknown" ∧
    ("unknown" : String) ≠ "light.bedroom_lamp" := by
  exact ⟨by decide, by decide⟩

/-- Claim C8, amended: a phrase containing full aliases of both devices
resolves to the light entity even when the switch precedes it in the cache
(domain preference ranks light above switch), and a phrase containing only
the switch alias resolves to the switch. -/
theorem extract_device_alias_and_domain_preference :
    _extract_device "turn on the bedroom lamp and the bedroom fan plug"
        [("switch.bedroom_fan_plug", ""), ("light.bedroom_lamp", "")] = "light.bedroom_lamp" ∧
    _extract_device "turn on the bedroom fan plug"
        [("light.bedroom_lamp", ""), ("switch.bedroom_fan_plug", "")]
      = "switch.bedroom_fan_plug" := by
  exact ⟨by decide, by decide⟩

/-- Claim C9: when the devices state file is missing, or no entity in it
matches the requested entity id, `POST /execute` answers without raising (an
HTTP 200 response) with a body whose status is "error", and the devices file
is not written: the file contents after the call equal the contents before. -/
theorem execute_command_error_body_no_write (file : Option (List JEntity))
    (eid service : String) (data : Option (List (String × JVal)))
    (h : ∀ e ∈ file.getD [], e.entity_id ≠ some eid) :
    ∃ msg, execute_command file eid service data = .ok ⟨.errorBody msg, file, false⟩ := by
  cases file with
  | none => exact ⟨"Devices state file not found", rfl⟩
  | some devices =>
      refine ⟨"No entity found with id " ++ eid, ?_⟩
      simp only [execute_command]
      rw [updateFirstEntity_eq_none eid _ data devices (by simpa using h)]

/-- Claim C9, witness: a one-entity state file and a command for a different
entity id. -/
theorem execute_command_error_body_no_write_witness :
    ∃ msg,
      execute_command (some [{ entity_id := some "light.kitchen", state := some (.str "on") }])
          "light.garage" "turn_on" none =
        .ok ⟨.errorBody msg,
          some [{ entity_id := some "light.kitchen", state := some (.str "on") }], false⟩ :=
  execute_command_error_body_no_write
    (some [{ entity_id := some "light.kitchen", state := some (.str "on") }])
    "light.garage" "turn_on" none (by decide)

/-- Claim C10: `PATCH /dashboard/approvals/{id}` with an id absent from the
queue raises 404 and the persisted dashboard document is unchanged; when the
id matches an item, the status of the first such item is overwritten and the
updated document is both saved and returned. -/
theorem update_approval_queue_atomicity (store : DashboardDoc) (item_id new_status : String) :
    ((∀ it ∈ store.approval_queue, it.id ≠ item_id) →
        update_approval_queue store item_id new_status = (.error 404, store)) ∧
    (∀ pre it post, store.approval_queue = pre ++ it :: post → it.id = item_id →
        (∀ j ∈ pre, j.id ≠ item_id) →
        update_approval_queue store item_id new_status =
          (.ok { store with approval_queue := pre ++ { it with status := new_status } :: post },
            { store with approval_queue := pre ++ { it with status := new_status } :: post })) := by
  constructor
  · intro h
    unfold update_approval_queue
    rw [updateFirstApproval_eq_none h]
  · intro pre it post hq hit hpre
    unfold update_approval_queue
    rw [hq, updateFirstApproval_found pre it post _ _ hpre hit]

/-- Claim C10, witness: a one-item queue, updated with a missing id (404 and
unchanged store) and with the matching id (status overwritten and saved). -/
theorem update_approval_queue_atomicity_witness :
    update_approval_queue ⟨[⟨"approval-1", "pending", []⟩], []⟩ "missing" "approved" =
      (.error 404, ⟨[⟨"approval-1", "pending", []⟩], []⟩) ∧
    update_approval_queue ⟨[⟨"approval-1", "pending", []⟩], []⟩ "approval-1" "approved" =
      (.ok ⟨[⟨"approval-1", "approved", []⟩], []⟩, ⟨[⟨"approval-1", "approved", []⟩], []⟩) := by
  constructor
  · exact (update_approval_queue_atomicity ⟨[⟨"approval-1", "pending", []⟩], []⟩
      "missing" "approved").1 (by decide)
  · exact (update_approval_queue_atomicity ⟨[⟨"approval-1", "pending", []⟩], []⟩
      "approval-1" "approved").2 [] ⟨"approval-1", "pending", []⟩ [] rfl rfl (by decide)

end AutoHome
